import Mathlib

/-!
Verification of the reddit-analyzer pipeline orchestration engine and
collection client against its natural-language specification.

The development shallowly embeds the Python source:

* `src/reddit/parsers.py`    — comment-tree flattening (`parse_comment`,
  `parse_comments_tree`);
* `src/reddit/rate_limiter.py` — the adaptive rate limiter's interval
  computation (real arithmetic modelled exactly over `ℚ`);
* `src/reddit/client.py`     — the retry/backoff classification of the
  request path (`_request` plus the tenacity retry decorator);
* `src/state/schema.py`, `src/workflow/routing.py`, `src/workflow/graph.py`
  and the node modules under `src/workflow/nodes/` — the workflow state,
  the routers, the node functions and the engine's state-update semantics.

Modelling conventions, used throughout:

* Python dicts whose keys are strings are embedded as association lists
  (`StrMap`) with Python's assignment semantics (replace in place, append
  new keys at the end).
* The `WorkflowState` TypedDict is embedded as a structure holding the
  `state.get(...)` view of each field; a node's partial update is a
  structure of `Option` fields, `none` meaning the key is absent from the
  returned dict.  Applying an update follows `dict.update` (which is also
  LangGraph's default last-value channel behaviour for fields that have no
  reducer annotation): a present field replaces the old value wholesale.
* External collaborators (the persistence store, the HTTP transport, the
  AI analysis capability) are parameters of the embedding, packaged in the
  `World` and `Store` structures; the code under `src/` is embedded, the
  collaborators' answers are universally quantified inputs.
* Statistics payloads computed by extraction/analysis nodes for a
  non-empty post list are represented by the opaque constructor
  `V.payload`, tagged with the producing computation; no claim refers to
  the numeric contents of those payloads.  The empty-input branches, which
  the claims do exercise, are embedded exactly.
* Python floats are modelled as exact rationals; the numeric facts used by
  the theorems are robust to double rounding at the chosen inputs.
-/

/-! ## String-keyed maps with Python dict semantics -/

/-- Association list standing for a Python dict with string keys. -/
abbrev StrMap (α : Type) := List (String × α)

/-- Key membership test, `k in d`. -/
def StrMap.containsKey (m : StrMap α) (k : String) : Bool :=
  m.any (fun kv => kv.1 == k)

/-- Python `d.get(k)`: first value bound to `k`, if any. -/
def StrMap.lookup (m : StrMap α) (k : String) : Option α :=
  match m.find? (fun kv => kv.1 == k) with
  | some kv => some kv.2
  | none => none

/-- Python `d[k] = v`: replace the value in place if the key exists,
otherwise append the new binding at the end. -/
def StrMap.setKey (m : StrMap α) (k : String) (v : α) : StrMap α :=
  match m with
  | [] => [(k, v)]
  | (k0, v0) :: rest =>
    if k0 == k then (k0, v) :: rest else (k0, v0) :: StrMap.setKey rest k v

/-- Python `{**existing, **new}` — the body of `merge_dicts` in
`src/state/schema.py` (the shallow-merge reducer the schema defines for
LangGraph state updates but never attaches to any field). -/
def merge_dicts (existing new : StrMap α) : StrMap α :=
  new.foldl (fun acc kv => acc.setKey kv.1 kv.2) existing

/-! ## JSON-like values -/

/-- Values stored inside the nested result dicts.  `payload tag` stands for
a statistics dict computed by the named source function from the given
posts and comments; its internal fields are not referenced by any claim
and are left uninterpreted. -/
inductive V where
  | s (x : String)
  | i (x : Int)
  | q (x : ℚ)
  | b (x : Bool)
  | nil
  | arr (xs : List V)
  | dict (kvs : List (String × V))
  | payload (tag : String)

/-! ## Records: posts and comments (`src/reddit/parsers.py` output shape) -/

/-- Parsed post record, the dict produced by `parse_post` restricted to the
fields the embedded code reads. -/
structure Post where
  redditId : String := ""
  title : String := ""
  selftext : String := ""
  authorName : Option String := none
  score : Int := 0
  flairText : Option String := none
  createdUtc : Option Nat := none
  deriving Repr, DecidableEq

/-- Parsed comment record, the dict produced by `parse_comment`.
`createdUtc` keeps the raw Unix timestamp; `parse_timestamp` converts it
bijectively to a datetime and is not modelled further. -/
structure Comment where
  redditId : String := ""
  postRedditId : Option String := none
  parentRedditId : Option String := none
  authorName : Option String := none
  body : String := ""
  score : Int := 0
  depth : Nat := 0
  isSubmitter : Bool := false
  createdUtc : Option Nat := none
  deriving Repr, DecidableEq

/-! ## Raw comment-tree items

A raw Reddit comment-tree entry is a dict `{"kind": ..., "data": {...}}`;
the `data` sub-dict may carry a `replies` listing, which is itself a dict
holding `data.children`, or the empty string (or be absent) when there are
no replies.  The embedding flattens the two dict levels into one structure
and models the `replies` listing as `Option (List RItem)`: `none` covers a
missing, empty-string or otherwise non-dict `replies` value (all of which
the source treats alike at `parsers.py:118`), `some children` a listing
dict with its `children` list. -/
inductive RItem where
  | mk (kind : String) (idStr : Option String) (body : Option String)
       (parentId : Option String) (author : Option String)
       (score : Option Int) (isSubmitter : Option Bool)
       (createdUtc : Option Nat) (replies : Option (List RItem))

/-- Field accessor for the `kind` tag. -/
def RItem.kind : RItem → String
  | .mk k _ _ _ _ _ _ _ _ => k

/-- Field accessor for `data.id`. -/
def RItem.idStr : RItem → Option String
  | .mk _ i _ _ _ _ _ _ _ => i

/-- Field accessor for `data.body`. -/
def RItem.body : RItem → Option String
  | .mk _ _ b _ _ _ _ _ _ => b

/-- Field accessor for `data.parent_id`. -/
def RItem.parentId : RItem → Option String
  | .mk _ _ _ p _ _ _ _ _ => p

/-- Field accessor for `data.author`. -/
def RItem.author : RItem → Option String
  | .mk _ _ _ _ a _ _ _ _ => a

/-- Field accessor for `data.score`. -/
def RItem.score : RItem → Option Int
  | .mk _ _ _ _ _ s _ _ _ => s

/-- Field accessor for `data.is_submitter`. -/
def RItem.isSubmitter : RItem → Option Bool
  | .mk _ _ _ _ _ _ i _ _ => i

/-- Field accessor for `data.created_utc`. -/
def RItem.createdUtc : RItem → Option Nat
  | .mk _ _ _ _ _ _ _ c _ => c

/-- Field accessor for the `replies` listing's children. -/
def RItem.replies : RItem → Option (List RItem)
  | .mk _ _ _ _ _ _ _ _ r => r

/-- Python `s.startswith(pre)`, embedded character-wise (Python strings
index by character, as does `String.data` here). -/
def pyStartsWith (s pre : String) : Bool :=
  pre.data.isPrefixOf s.data

/-- Python `s[n:]`, embedded character-wise. -/
def pyDrop (s : String) (n : Nat) : String :=
  ⟨s.data.drop n⟩

/-- Embedding of `parse_comment` (`src/reddit/parsers.py:46-87`): skip
entries whose kind is not `"t1"`, skip deleted/removed/empty bodies, strip
a `"t1_"` prefix from `parent_id` (any other parent, including a missing
one and a `"t3_"` post parent, yields no parent link), and record the
caller-supplied nesting depth. -/
def parse_comment (data : RItem) (_postRedditId : String) (depth : Nat) :
    Option Comment :=
  if data.kind ≠ "t1" then none
  else
    if data.body.getD "" = "[deleted]" ∨ data.body.getD "" = "[removed]" ∨
        data.body.getD "" = "" then none
    else
      some
        { redditId := data.idStr.getD ""
          parentRedditId :=
            if pyStartsWith (data.parentId.getD "") "t1_"
            then some (pyDrop (data.parentId.getD "") 3) else none
          authorName := data.author
          body := data.body.getD ""
          score := data.score.getD 0
          depth := depth
          isSubmitter := data.isSubmitter.getD false
          createdUtc := data.createdUtc }

/-- Embedding of `parse_comments_tree` (`src/reddit/parsers.py:90-129`):
walk the item list; for each `"t1"` item that `parse_comment` accepts,
emit the record and, while `depth < max_depth`, recurse into its replies
at `depth + 1`.  Note the source recurses only under `if parsed:`, so the
whole subtree of a rejected (deleted/removed/empty) comment is skipped.
Termination is by the depth budget and the length of the item list. -/
def parse_comments_tree (data : List RItem) (postRedditId : String)
    (depth : Nat) (maxDepth : Nat) : List Comment :=
  match data with
  | [] => []
  | item :: rest =>
    (if item.kind == "t1" then
      match parse_comment item postRedditId depth with
      | some parsed =>
        parsed ::
          (if depth < maxDepth then
            match item.replies with
            | some children =>
              parse_comments_tree children postRedditId (depth + 1) maxDepth
            | none => []
          else [])
      | none => []
    else []) ++ parse_comments_tree rest postRedditId depth maxDepth
  termination_by (maxDepth - depth, data.length)
  decreasing_by
  · apply Prod.Lex.left
    omega
  · apply Prod.Lex.right
    simp

/-- Decides whether `data.kind == "t1"` and the body passes the
deleted/removed/empty filter — exactly the conditions under which
`parse_comment` returns a record. -/
def contentValid (item : RItem) : Bool :=
  item.kind == "t1" &&
    (let body := item.body.getD ""
     !(body == "[deleted]" || body == "[removed]" || body == ""))

/-- Count of content nodes written from the words of claim C3: every
`"t1"` node anywhere in the tree whose body is neither empty nor
`"[deleted]"` nor `"[removed]"`, regardless of what its ancestors are.
This is the claim-side count, to be compared with what the parser emits. -/
def allValidT1Count (data : List RItem) : Nat :=
  match data with
  | [] => 0
  | item :: rest =>
    (if contentValid item then 1 else 0) +
      (match h : item.replies with
       | some children => allValidT1Count children
       | none => 0) +
      allValidT1Count rest
  termination_by sizeOf data
  decreasing_by
  all_goals
    first
    | (cases item with
       | mk k i b p a s isub c r =>
         simp [RItem.replies] at h
         subst h
         simp
         try omega)
    | (simp; try omega)

/-- Depth sequence of the records the amended claim predicts: a content
node reachable from the root through content nodes only contributes its
nesting level, in depth-first order; descent stops once the level exceeds
`maxDepth`; the subtree below a non-content node is omitted. -/
def specDepths (data : List RItem) (depth : Nat) (maxDepth : Nat) :
    List Nat :=
  match data with
  | [] => []
  | item :: rest =>
    (if contentValid item then
      depth ::
        (if depth < maxDepth then
          match item.replies with
          | some children => specDepths children (depth + 1) maxDepth
          | none => []
        else [])
    else []) ++ specDepths rest depth maxDepth
  termination_by (maxDepth - depth, data.length)
  decreasing_by
  · apply Prod.Lex.left
    omega
  · apply Prod.Lex.right
    simp

/-- Bounded-depth check on a forest: `forestDepthLe k data` holds when no
node of the forest sits at nesting level greater than `k` (roots are at
level 0).  An empty replies listing is allowed at any level. -/
def forestDepthLe (k : Nat) (data : List RItem) : Bool :=
  match data with
  | [] => true
  | item :: rest =>
    (match item.replies, k with
     | none, _ => true
     | some children, 0 => children.isEmpty
     | some children, k' + 1 => forestDepthLe k' children) &&
      forestDepthLe k rest
  termination_by (k, data.length)
  decreasing_by
  · apply Prod.Lex.left
    omega
  · apply Prod.Lex.right
    simp

/-! ## Parser lemmas and claims C3 / C10 -/

/-- Acceptance of `parse_comment` coincides with `contentValid`. -/
lemma parse_comment_isSome (item : RItem) (pid : String) (d : Nat) :
    (parse_comment item pid d).isSome = contentValid item := by
  unfold parse_comment contentValid
  by_cases hk : item.kind = "t1"
  · simp only [hk, ne_eq, not_true_eq_false, if_false, beq_self_eq_true,
      Bool.true_and]
    split
    · rename_i hb
      simp only [Option.isSome_none, Bool.not_eq_true']
      rcases hb with h | h | h <;> simp [h]
    · rename_i hb
      push_neg at hb
      obtain ⟨h1, h2, h3⟩ := hb
      simp [h1, h2, h3]
  · have : (item.kind == "t1") = false := by
      simp [hk]
    simp [hk, this]

/-- Records produced by `parse_comment` carry the caller's depth. -/
lemma parse_comment_depth {item : RItem} {pid : String} {d : Nat}
    {c : Comment} (h : parse_comment item pid d = some c) : c.depth = d := by
  unfold parse_comment at h
  split at h
  · exact absurd h (by simp)
  · split at h
    · exact absurd h (by simp)
    · cases h
      rfl

/-- Unfolding equation for `parse_comments_tree` on an empty list. -/
lemma parse_comments_tree_nil (pid : String) (depth maxDepth : Nat) :
    parse_comments_tree [] pid depth maxDepth = [] := by
  rw [parse_comments_tree]

/-- Unfolding equation for `specDepths` on an empty list. -/
lemma specDepths_nil (depth maxDepth : Nat) :
    specDepths [] depth maxDepth = [] := by
  rw [specDepths]

/-- Depth-sequence characterisation of the flattener: the depths of the
emitted records are exactly the levels `specDepths` predicts — content
nodes reachable through content nodes only, cut off beyond `maxDepth`. -/
theorem parse_tree_depths_aux :
    ∀ (f depth maxDepth : Nat), maxDepth - depth ≤ f →
      ∀ (data : List RItem) (pid : String),
        (parse_comments_tree data pid depth maxDepth).map Comment.depth =
          specDepths data depth maxDepth := by
  intro f
  induction f with
  | zero =>
    intro depth maxDepth hf data pid
    have hlt : ¬ depth < maxDepth := by omega
    induction data with
    | nil => rw [parse_comments_tree_nil, specDepths_nil, List.map_nil]
    | cons item rest ih =>
      rw [parse_comments_tree, specDepths]
      simp only [List.map_append, ih]
      congr 1
      by_cases hk : item.kind == "t1"
      · simp only [hk, if_true]
        cases hpc : parse_comment item pid depth with
        | none =>
          have : contentValid item = false := by
            rw [← parse_comment_isSome item pid depth, hpc]
            rfl
          simp [this]
        | some c =>
          have hv : contentValid item = true := by
            rw [← parse_comment_isSome item pid depth, hpc]
            rfl
          simp [hv, hlt, parse_comment_depth hpc]
      · have : contentValid item = false := by
          simp only [contentValid, hk, Bool.false_and]
        simp [hk, this]
  | succ n ihf =>
    intro depth maxDepth hf data pid
    induction data with
    | nil => rw [parse_comments_tree_nil, specDepths_nil, List.map_nil]
    | cons item rest ih =>
      rw [parse_comments_tree, specDepths]
      simp only [List.map_append, ih]
      congr 1
      by_cases hk : item.kind == "t1"
      · simp only [hk, if_true]
        cases hpc : parse_comment item pid depth with
        | none =>
          have : contentValid item = false := by
            rw [← parse_comment_isSome item pid depth, hpc]
            rfl
          simp [this]
        | some c =>
          have hv : contentValid item = true := by
            rw [← parse_comment_isSome item pid depth, hpc]
            rfl
          by_cases hlt : depth < maxDepth
          · simp only [hv, if_true, hlt, List.map_cons,
              parse_comment_depth hpc]
            congr 1
            cases item.replies with
            | none => rfl
            | some children =>
              exact ihf (depth + 1) maxDepth (by omega) children pid
          · simp [hv, hlt, parse_comment_depth hpc]
      · have : contentValid item = false := by
          simp only [contentValid, hk, Bool.false_and]
        simp [hk, this]

/-- C3 (amended): for every comment tree (any depth), the flattener emits
one record per content node that is reachable from the root through
content nodes only and lies at nesting level at most `max_depth`; each
record's depth is its nesting level (top-level replies get 0, a reply one
more than its parent); deeper or unreachable nodes are omitted without
error.  The record depths, in order, are exactly `specDepths`. -/
theorem C3_tree_flattening (data : List RItem) (pid : String)
    (depth maxDepth : Nat) :
    (parse_comments_tree data pid depth maxDepth).map Comment.depth =
      specDepths data depth maxDepth ∧
    (parse_comments_tree data pid depth maxDepth).length =
      (specDepths data depth maxDepth).length := by
  have h := parse_tree_depths_aux (maxDepth - depth) depth maxDepth
    (Nat.le_refl _) data pid
  refine ⟨h, ?_⟩
  calc (parse_comments_tree data pid depth maxDepth).length
      = ((parse_comments_tree data pid depth maxDepth).map
          Comment.depth).length := (List.length_map _ _).symm
    _ = (specDepths data depth maxDepth).length := by rw [h]

/-- Single valid reply nested under a deleted comment. -/
def nestedValidReply : RItem :=
  .mk "t1" (some "c2") (some "I agree") (some "t1_c1") (some "bob")
    (some 3) (some false) none none

/-- Depth-1 comment tree whose root is a deleted comment carrying one
valid reply. -/
def deletedRootTree : List RItem :=
  [.mk "t1" (some "c1") (some "[deleted]") (some "t3_p1") none
    (some 1) (some false) none (some [nestedValidReply])]

/-- C3 counterexample: a tree of depth 1 (within the default bound 10)
holding exactly one content node with a valid body, for which the
flattener returns an empty list — the valid reply is dropped because its
parent comment is deleted, so the claimed count equality fails. -/
theorem C3_counterexample :
    forestDepthLe 10 deletedRootTree = true ∧
    allValidT1Count deletedRootTree = 1 ∧
    parse_comments_tree deletedRootTree "p1" 0 10 = [] ∧
    (parse_comments_tree deletedRootTree "p1" 0 10).length ≠
      allValidT1Count deletedRootTree := by
  have hdep : forestDepthLe 10 deletedRootTree = true := by
    simp [forestDepthLe, deletedRootTree, nestedValidReply, RItem.replies]
  have hcount : allValidT1Count deletedRootTree = 1 := by
    simp [allValidT1Count, deletedRootTree, nestedValidReply, contentValid,
      RItem.replies, RItem.kind, RItem.body]
  have hparse : parse_comments_tree deletedRootTree "p1" 0 10 = [] := by
    simp [parse_comments_tree, deletedRootTree, nestedValidReply,
      parse_comment, RItem.kind, RItem.body]
  refine ⟨hdep, hcount, hparse, ?_⟩
  rw [hparse, hcount]
  simp

/-- C10: whenever `parse_comment` accepts a raw comment, the recorded
parent linkage strips a `"t1_"` prefix from `parent_id`; any other parent
reference — a `"t3_"` post parent or a missing `parent_id` — leaves the
parent field empty. -/
theorem C10_parent_linkage (item : RItem) (pid : String) (d : Nat)
    (c : Comment) (h : parse_comment item pid d = some c) :
    c.parentRedditId =
      (if pyStartsWith (item.parentId.getD "") "t1_"
       then some (pyDrop (item.parentId.getD "") 3)
       else none) := by
  unfold parse_comment at h
  split at h
  · exact absurd h (by simp)
  · split at h
    · exact absurd h (by simp)
    · cases h
      rfl

/-- Record that `parse_comment` produces for `nestedValidReply`. -/
def nestedValidReplyRecord : Comment :=
  { redditId := "c2"
    parentRedditId := some "c1"
    authorName := some "bob"
    body := "I agree"
    score := 3
    depth := 4
    isSubmitter := false
    createdUtc := none }

/-- C10 witness: the comment-parent raw item `nestedValidReply`
(`parent_id = "t1_c1"`) parses to a record whose parent link is `"c1"`. -/
theorem C10_parent_linkage_witness :
    parse_comment nestedValidReply "p1" 4 = some nestedValidReplyRecord ∧
    nestedValidReplyRecord.parentRedditId =
      (if pyStartsWith ((nestedValidReply).parentId.getD "") "t1_"
       then some (pyDrop ((nestedValidReply).parentId.getD "") 3)
       else none) :=
  ⟨by decide, C10_parent_linkage nestedValidReply "p1" 4 nestedValidReplyRecord
    (by decide)⟩

/-! ## Rate limiter (`src/reddit/rate_limiter.py`)

Python floats are modelled as exact rationals.  Only the interval
computation performed inside `AdaptiveRateLimiter.acquire` is embedded;
the surrounding lock/sleep/stamp protocol is real-time behaviour outside
the reach of the claims. -/

/-- State of `AdaptiveRateLimiter`: constructor arguments plus the
adaptive quota fields (`remaining`, `reset_time`) that
`update_from_headers` maintains.  Defaults are the source defaults
(`requests_per_minute=30`, `min_interval=0.5`, `safety_margin=0.8`). -/
structure AdaptiveRateLimiter where
  requestsPerMinute : Nat := 30
  minInterval : ℚ := 1/2
  safetyMargin : ℚ := 4/5
  remaining : Option Int := none
  resetTime : Option ℚ := none
  deriving Repr, DecidableEq

/-- Fixed default interval set by `RateLimiter.__init__`
(`rate_limiter.py:31`): `max(60.0 / requests_per_minute, min_interval)`. -/
def AdaptiveRateLimiter.interval (l : AdaptiveRateLimiter) : ℚ :=
  max (60 / (l.requestsPerMinute : ℚ)) l.minInterval

/-- Interval selected by `AdaptiveRateLimiter.acquire`
(`rate_limiter.py:136-167`) before it spaces the request: with quota
metadata present, a positive time-to-reset and positive remaining quota,
the adaptive interval `time_to_reset / int(remaining * safety_margin)`
clamped from below by the fixed default interval — unless
`int(remaining * safety_margin)` is zero, in which case the full
time-to-reset is used; in every other situation the fixed default
interval.  Python `int()` truncates toward zero; the guarded operand is
nonnegative here, so it is the floor. -/
def AdaptiveRateLimiter.acquireInterval (l : AdaptiveRateLimiter)
    (now : ℚ) : ℚ :=
  match l.remaining, l.resetTime with
  | some remaining, some resetTime =>
    if 0 < resetTime - now ∧ 0 < remaining then
      if 0 < ⌊(remaining : ℚ) * l.safetyMargin⌋ then
        max ((resetTime - now) / ((⌊(remaining : ℚ) * l.safetyMargin⌋ : Int) : ℚ))
          l.interval
      else resetTime - now
    else l.interval
  | _, _ => l.interval

/-- Interval claim C7 asserts, written from the claim's words: divide
time-to-reset by `remaining * safety-margin` itself and clamp from below
by the configured floor (`min_interval`); fall back to the fixed default
interval when metadata is missing or stale. -/
def claimAdaptiveInterval (l : AdaptiveRateLimiter) (now : ℚ) : ℚ :=
  match l.remaining, l.resetTime with
  | some remaining, some resetTime =>
    if 0 < resetTime - now ∧ 0 < remaining then
      max ((resetTime - now) / ((remaining : ℚ) * l.safetyMargin))
        l.minInterval
    else l.interval
  | _, _ => l.interval

/-- Limiter that has just learned `remaining = 100`, `reset` 60 seconds
away (all other parameters at their defaults). -/
def limiterAt100 : AdaptiveRateLimiter :=
  { remaining := some 100, resetTime := some 60 }

/-- C7 counterexample: with the default configuration (30 rpm, floor 0.5,
margin 0.8), 100 remaining requests and a reset 60 seconds away, the code
clamps to the fixed default interval `max(60/30, 0.5) = 2` while the
claimed formula yields `max(60/80, 0.5) = 3/4`; the claim's interval is
not the one the code uses. -/
theorem C7_counterexample :
    limiterAt100.acquireInterval 0 = 2 ∧
    claimAdaptiveInterval limiterAt100 0 = 3/4 ∧
    limiterAt100.acquireInterval 0 ≠ claimAdaptiveInterval limiterAt100 0 := by
  refine ⟨?_, ?_, ?_⟩ <;>
    norm_num [AdaptiveRateLimiter.acquireInterval, claimAdaptiveInterval,
      AdaptiveRateLimiter.interval, limiterAt100]

/-- C7 (amended): with quota metadata present, a future reset and positive
remaining quota, the interval is time-to-reset divided by
`⌊remaining * safety_margin⌋`, clamped to be no smaller than the fixed
default interval `max(60/requests_per_minute, min_interval)` (not merely
the floor `min_interval`); when `⌊remaining * safety_margin⌋ = 0` the
limiter waits the full time-to-reset; with metadata missing, a past
reset, or non-positive remaining quota it falls back to the fixed default
interval. -/
theorem C7_adaptive_interval (l : AdaptiveRateLimiter) (now : ℚ) :
    (∀ rem rt, l.remaining = some rem → l.resetTime = some rt →
      0 < rt - now → 0 < rem →
      ((0 < ⌊(rem : ℚ) * l.safetyMargin⌋ →
        l.acquireInterval now =
          max ((rt - now) / ((⌊(rem : ℚ) * l.safetyMargin⌋ : Int) : ℚ))
            l.interval) ∧
       (⌊(rem : ℚ) * l.safetyMargin⌋ ≤ 0 →
        l.acquireInterval now = rt - now))) ∧
    ((l.remaining = none ∨ l.resetTime = none) →
      l.acquireInterval now = l.interval) ∧
    (∀ rem rt, l.remaining = some rem → l.resetTime = some rt →
      (rt - now ≤ 0 ∨ rem ≤ 0) → l.acquireInterval now = l.interval) ∧
    l.interval = max (60 / (l.requestsPerMinute : ℚ)) l.minInterval := by
  refine ⟨?_, ?_, ?_, rfl⟩
  · intro rem rt hrem hrt hpos hrempos
    unfold AdaptiveRateLimiter.acquireInterval
    rw [hrem, hrt]
    constructor
    · intro hsafe
      simp only [hpos, hrempos, and_self, if_true, hsafe]
    · intro hsafe
      have : ¬ 0 < ⌊(rem : ℚ) * l.safetyMargin⌋ := by omega
      simp only [hpos, hrempos, and_self, if_true, this, if_false]
  · intro h
    unfold AdaptiveRateLimiter.acquireInterval
    rcases h with h | h <;> rw [h] <;> cases hr2 : l.resetTime <;>
      cases hr1 : l.remaining <;> rfl
  · intro rem rt hrem hrt h
    unfold AdaptiveRateLimiter.acquireInterval
    rw [hrem, hrt]
    have : ¬ (0 < rt - now ∧ 0 < rem) := by
      rcases h with h | h
      · rintro ⟨h1, _⟩
        linarith
      · rintro ⟨_, h2⟩
        omega
    simp only [this, if_false]

/-- C7 witness: the amended formula applied to `limiterAt100` at time 0 —
`⌊100 * 0.8⌋ = 80` requests may be spread over 60 seconds, giving the
adaptive value 3/4, clamped up to the default interval 2. -/
theorem C7_adaptive_interval_witness :
    limiterAt100.remaining = some 100 ∧ (0:ℚ) < 60 - 0 ∧
    limiterAt100.acquireInterval 0 =
      max ((60 - 0) / ((⌊((100 : Int) : ℚ) * limiterAt100.safetyMargin⌋ : Int) : ℚ))
        limiterAt100.interval :=
  ⟨rfl, by norm_num,
    (((C7_adaptive_interval limiterAt100 0).1 100 60 rfl rfl (by norm_num)
      (by norm_num)).1 (by norm_num [limiterAt100]))⟩

/-! ## Collection client request path (`src/reddit/client.py`)

The HTTP transport is external: a run is driven by a script assigning to
each attempt number (tenacity counts from 1) either a transport exception
or a received response.  `update_from_headers`, called on every response,
only mutates the limiter state examined in the previous section and does
not influence the request outcome, so it is not repeated here. -/

/-- Exceptions that can escape one call of the request body: the two
transport exception classes named by the tenacity decorator
(`httpx.TimeoutException`, `httpx.NetworkError`) and `RedditAPIError`
with its message and optional status code. -/
inductive ReqException where
  | timeoutExc
  | networkExc
  | redditAPIError (message : String) (statusCode : Option Nat)
  deriving Repr, DecidableEq

/-- Response, reduced to the fields the request path reads: the status
code, the parsed `Retry-After` header, and the JSON body. -/
structure HttpResponse where
  status : Nat
  retryAfter : Option Nat := none
  body : V := V.nil

/-- Retry predicate declared by the tenacity decorator on
`RedditClient._request` (`client.py:85-89`):
`retry_if_exception_type((httpx.TimeoutException, httpx.NetworkError))`.
`RedditAPIError` is not among the retried types. -/
def retriableException : ReqException → Bool
  | .timeoutExc => true
  | .networkExc => true
  | .redditAPIError _ _ => false

/-- Status handling inside one execution of `_request`
(`client.py:102-124`), given the response: a 429 sleeps for the
`Retry-After` duration (default 60) and then raises
`RedditAPIError("Rate limited", 429)`; a 404 raises
`RedditAPIError("Not found", 404)`; any other non-200 raises
`RedditAPIError("Request failed: ...", status)`; a 200 returns the JSON
body.  The first component lists the `asyncio.sleep` durations
performed. -/
def classifyResponse (resp : HttpResponse) : List Nat × Except ReqException V :=
  if resp.status == 429 then
    ([resp.retryAfter.getD 60],
      Except.error (.redditAPIError "Rate limited" (some 429)))
  else if resp.status == 404 then
    ([], Except.error (.redditAPIError "Not found" (some 404)))
  else if resp.status != 200 then
    ([], Except.error (.redditAPIError
      ("Request failed: " ++ toString resp.status) (some resp.status)))
  else ([], Except.ok resp.body)

/-- One execution of the `_request` body at attempt number `i`: the
scripted transport either raises an exception before a response exists or
delivers a response, which `classifyResponse` handles. -/
def attemptOutcome (script : Nat → Sum ReqException HttpResponse)
    (i : Nat) : List Nat × Except ReqException V :=
  match script i with
  | .inl e => ([], .error e)
  | .inr resp => classifyResponse resp

/-- Retry loop of the tenacity decorator, recursing on the remaining
retry budget: on an exception that the decorator's predicate accepts,
and while retries remain (`stop_after_attempt(3)` allows two further
attempts after the first), the next attempt runs; otherwise the
exception propagates to the caller.  Inter-attempt exponential waits are
tenacity-internal and carry no claim content, so only the explicit
`asyncio.sleep` calls are collected.  Result: (sleeps performed, final
outcome, number of the last attempt executed). -/
def runRequestAux (script : Nat → Sum ReqException HttpResponse) :
    Nat → Nat → List Nat × Except ReqException V × Nat
  | attemptIdx, 0 =>
    (match attemptOutcome script attemptIdx with
     | (sleeps, .ok v) => (sleeps, .ok v, attemptIdx)
     | (sleeps, .error e) => (sleeps, .error e, attemptIdx))
  | attemptIdx, n + 1 =>
    (match attemptOutcome script attemptIdx with
     | (sleeps, .ok v) => (sleeps, .ok v, attemptIdx)
     | (sleeps, .error e) =>
       if retriableException e then
         let rest := runRequestAux script (attemptIdx + 1) n
         (sleeps ++ rest.1, rest.2.1, rest.2.2)
       else (sleeps, .error e, attemptIdx))

/-- Embedding of `RedditClient._request` under its decorator: first
attempt is number 1 and at most two retries follow. -/
def RedditClient.request (script : Nat → Sum ReqException HttpResponse) :
    List Nat × Except ReqException V × Nat :=
  runRequestAux script 1 2

/-- Value lookup on a JSON dict; any non-dict has no fields. -/
def vGet (v : V) (k : String) : Option V :=
  match v with
  | .dict kvs => StrMap.lookup kvs k
  | _ => none

/-- Python `d.get(k, default)` on a JSON value. -/
def vGetD (v : V) (k : String) (d : V) : V :=
  (vGet v k).getD d

/-- String content of a JSON value, for f-string interpolation of values
that are strings in every run the claims touch. -/
def vStr (v : V) : String :=
  match v with
  | .s x => x
  | _ => ""

/-- Embedding of `parse_author` (`parsers.py:132-150`): unwrap the
optional `data` envelope and read the profile fields with their
defaults.  The timestamp is kept raw (`parse_timestamp` is injective on
present values). -/
def parse_author (data : V) : V :=
  let author_data := (vGet data "data").getD data
  .dict [
    ("username", vGetD author_data "name" (V.s "")),
    ("link_karma", vGetD author_data "link_karma" (V.i 0)),
    ("comment_karma", vGetD author_data "comment_karma" (V.i 0)),
    ("total_karma", vGetD author_data "total_karma" (V.i 0)),
    ("account_created_utc", vGetD author_data "created_utc" V.nil),
    ("is_gold", vGetD author_data "is_gold" (V.b false))]

/-- Embedding of `parse_subreddit_about` (`parsers.py:153-169`). -/
def parse_subreddit_about (data : V) : V :=
  let sub_data := (vGet data "data").getD data
  .dict [
    ("name", vGetD sub_data "display_name" (V.s "")),
    ("display_name",
      V.s ("r/" ++ vStr (vGetD sub_data "display_name" (V.s "")))),
    ("description", vGetD sub_data "public_description" (V.s "")),
    ("subscribers", vGetD sub_data "subscribers" (V.i 0))]

/-- Embedding of `RedditClient.get_subreddit_about` (`client.py:126-137`):
issue the request and parse; exceptions from the request path, including
the 404 `RedditAPIError`, propagate to the caller unhandled. -/
def get_subreddit_about (_subreddit : String)
    (script : Nat → Sum ReqException HttpResponse) : Except ReqException V :=
  match (RedditClient.request script).2.1 with
  | .ok data => .ok (parse_subreddit_about data)
  | .error e => .error e

/-- Embedding of `RedditClient.get_user_about` (`client.py:220-239`):
skip missing/deleted/bot usernames without a request; catch a
`RedditAPIError` whose status is 404 and surface `None`; re-raise every
other exception. -/
def get_user_about (username : String)
    (script : Nat → Sum ReqException HttpResponse) :
    Except ReqException (Option V) :=
  if username = "" ∨ username = "[deleted]" ∨ username = "AutoModerator" then
    .ok none
  else
    match (RedditClient.request script).2.1 with
    | .ok data => .ok (some (parse_author data))
    | .error (.redditAPIError _ (some 404)) => .ok none
    | .error e => .error e

/-! ### Listing and comments-page fetches

`get_posts` and `get_post_comments` are the remaining fetch operations;
both let the 404 `RedditAPIError` escape unhandled.  `get_posts` calls
`_request` once per page, so its transport script carries one per-attempt
script for each page request. -/

/-- Python truthiness of a JSON value (opaque payloads, which stand for
non-empty statistics dicts, count as truthy). -/
def vTruthy : V → Bool
  | .s x => !(x == "")
  | .i x => !(x == 0)
  | .q x => !(x == 0)
  | .b x => x
  | .nil => false
  | .arr xs => !xs.isEmpty
  | .dict kvs => !kvs.isEmpty
  | .payload _ => true

/-- The `.get("data", {}).get("children", [])` access every listing
walker performs; a missing or non-array `children` yields no items. -/
def vChildren (listing : V) : List V :=
  match vGet ((vGet listing "data").getD (V.dict [])) "children" with
  | some (V.arr xs) => xs
  | _ => []

/-- String content of an optional JSON value, when it is a string. -/
def vStrOpt (o : Option V) : Option String :=
  match o with
  | some (V.s x) => some x
  | _ => none

/-- Integer content of an optional JSON value, when it is an integer. -/
def vIntOpt (o : Option V) : Option Int :=
  match o with
  | some (V.i x) => some x
  | _ => none

/-- Boolean content of an optional JSON value, when it is a boolean. -/
def vBoolOpt (o : Option V) : Option Bool :=
  match o with
  | some (V.b x) => some x
  | _ => none

/-- Timestamp content of an optional JSON value (Reddit timestamps are
non-negative numbers; they are kept raw, as in `parse_timestamp`). -/
def vNatOpt (o : Option V) : Option Nat :=
  match o with
  | some (V.i x) => if 0 ≤ x then some x.toNat else none
  | _ => none

/-- The children list the source would recurse into at
`parsers.py:117-119`: `data.get("replies")` must be truthy and a dict
(`{}` and `""` are both falsy or non-dict), and then its
`data.children` are taken. -/
def repliesChildrenV (d : V) : Option (List V) :=
  match vGet d "replies" with
  | some (V.dict rkvs) =>
    if rkvs.isEmpty then none else some (vChildren (V.dict rkvs))
  | _ => none

/-- A successful dict lookup returns a structurally smaller value. -/
lemma sizeOf_lookup_lt (kvs : List (String × V)) (k : String) (u : V)
    (h : StrMap.lookup kvs k = some u) : sizeOf u < sizeOf (V.dict kvs) := by
  induction kvs with
  | nil => simp [StrMap.lookup, List.find?] at h
  | cons kv rest ih =>
    obtain ⟨k0, v0⟩ := kv
    by_cases hk : k0 == k
    · simp only [StrMap.lookup, List.find?, hk] at h
      cases h
      simp
      omega
    · simp only [StrMap.lookup, List.find?, hk] at h
      have hlt := ih h
      simp at hlt ⊢
      omega

/-- `vGet` returns a structurally smaller value. -/
lemma sizeOf_vGet_lt (v u : V) (k : String) (h : vGet v k = some u) :
    sizeOf u < sizeOf v := by
  cases v <;> simp [vGet] at h
  case dict kvs => exact sizeOf_lookup_lt kvs k u h

/-- Array members are structurally smaller than the array. -/
lemma sizeOf_mem_arr_lt (xs : List V) (x : V) (h : x ∈ xs) :
    sizeOf x < sizeOf (V.arr xs) := by
  induction xs with
  | nil => cases h
  | cons y ys ih =>
    rcases List.mem_cons.mp h with h | h
    · subst h
      simp
      omega
    · have hlt := ih h
      simp at hlt ⊢
      omega

/-- Listing children are structurally smaller than the listing. -/
lemma sizeOf_mem_vChildren_lt (w x : V) (h : x ∈ vChildren w) :
    sizeOf x < sizeOf w := by
  unfold vChildren at h
  cases hd : vGet w "data" with
  | none =>
    rw [hd] at h
    simp [vGet, StrMap.lookup, List.find?] at h
  | some d =>
    rw [hd] at h
    cases hc : vGet d "children" with
    | none =>
      rw [Option.getD_some, hc] at h
      simp at h
    | some c =>
      rw [Option.getD_some, hc] at h
      cases c <;> simp at h
      case arr xs =>
        calc sizeOf x < sizeOf (V.arr xs) := sizeOf_mem_arr_lt xs x h
          _ < sizeOf d := sizeOf_vGet_lt d (V.arr xs) "children" hc
          _ < sizeOf w := sizeOf_vGet_lt w d "data" hd

/-- Reply children are structurally smaller than the comment dict. -/
lemma sizeOf_repliesChildren_lt (d x : V) (xs : List V)
    (h : repliesChildrenV d = some xs) (hx : x ∈ xs) :
    sizeOf x < sizeOf d := by
  unfold repliesChildrenV at h
  cases hr : vGet d "replies" with
  | none =>
    rw [hr] at h
    cases h
  | some r =>
    rw [hr] at h
    cases r <;> try cases h
    case dict rkvs =>
      dsimp only at h
      by_cases he : rkvs.isEmpty
      · rw [if_pos he] at h
        cases h
      · rw [if_neg he] at h
        cases h
        calc sizeOf x < sizeOf (V.dict rkvs) :=
            sizeOf_mem_vChildren_lt (V.dict rkvs) x hx
          _ < sizeOf d := sizeOf_vGet_lt d (V.dict rkvs) "replies" hr

/-- The structured view of one raw comment-tree child dict: exactly the
reads `parse_comment`/`parse_comments_tree` perform on it — `kind` from
the wrapper, the content fields from the `data` sub-dict (a non-string
field counts as missing, which the parsers then read through their
defaults), and the reply children precisely when the source would
recurse into them. -/
def ritemOfV (v : V) : RItem :=
  match h1 : vGet v "data" with
  | some d =>
    RItem.mk ((vStrOpt (vGet v "kind")).getD "")
      (vStrOpt (vGet d "id")) (vStrOpt (vGet d "body"))
      (vStrOpt (vGet d "parent_id")) (vStrOpt (vGet d "author"))
      (vIntOpt (vGet d "score")) (vBoolOpt (vGet d "is_submitter"))
      (vNatOpt (vGet d "created_utc"))
      (match h2 : repliesChildrenV d with
       | some xs => some (xs.attach.map (fun x => ritemOfV x.1))
       | none => none)
  | none =>
    RItem.mk ((vStrOpt (vGet v "kind")).getD "") none none none none
      none none none none
  termination_by sizeOf v
  decreasing_by
    have hxd := sizeOf_repliesChildren_lt d x.1 xs h2 x.2
    have hdv := sizeOf_vGet_lt v d "data" h1
    omega

/-- Embedding of `parse_post` (`parsers.py:21-43`): the post dict with
its read-defaults; the timestamp is kept raw (`parse_timestamp` is
injective on present values). -/
def parse_post (data : V) : V :=
  .dict [
    ("reddit_id", vGetD data "id" (V.s "")),
    ("title", vGetD data "title" (V.s "")),
    ("selftext", vGetD data "selftext" (V.s "")),
    ("author_name", (vGet data "author").getD V.nil),
    ("score", vGetD data "score" (V.i 0)),
    ("upvote_ratio", (vGet data "upvote_ratio").getD V.nil),
    ("num_comments", vGetD data "num_comments" (V.i 0)),
    ("flair_text", (vGet data "link_flair_text").getD V.nil),
    ("is_self", vGetD data "is_self" (V.b true)),
    ("is_video", vGetD data "is_video" (V.b false)),
    ("permalink", vGetD data "permalink" (V.s "")),
    ("created_utc", (vGet data "created_utc").getD V.nil)]

/-- Embedding of `extract_post_listing` (`parsers.py:172-188`): keep the
`data` payload of every `"t3"` child of the listing. -/
def extract_post_listing (response_data : V) : List V :=
  (vChildren response_data).filterMap (fun child =>
    match vGet child "kind" with
    | some (V.s k) =>
      if k == "t3" then some ((vGet child "data").getD (V.dict []))
      else none
    | _ => none)

/-- Pagination loop of `RedditClient.get_posts` (`client.py:157-185`):
while posts remain to be fetched, issue one `_request` (whose exceptions,
the 404 `RedditAPIError` included, propagate to the caller unhandled),
stop on an empty page or a missing/falsy `after` cursor, and cap the
result at `limit`.  Termination: each page that continues the loop
carries at least one post, so `remaining` strictly decreases. -/
def getPostsLoop (scripts : Nat → Nat → Sum ReqException HttpResponse)
    (limit : Nat) : Nat → List V → Int → Except ReqException (List V)
  | callIdx, posts, remaining =>
    if hrem : 0 < remaining then
      match (runRequestAux (scripts callIdx) 1 2).2.1 with
      | .error e => .error e
      | .ok data =>
        if hraw : (extract_post_listing data).isEmpty then
          .ok (posts.take limit)
        else
          match vGet ((vGet data "data").getD (V.dict [])) "after" with
          | some a =>
            if vTruthy a then
              getPostsLoop scripts limit (callIdx + 1)
                (posts ++ (extract_post_listing data).map parse_post)
                (remaining - (extract_post_listing data).length)
            else
              .ok ((posts ++ (extract_post_listing data).map
                parse_post).take limit)
          | none =>
            .ok ((posts ++ (extract_post_listing data).map
              parse_post).take limit)
    else .ok (posts.take limit)
  termination_by callIdx posts remaining => remaining.toNat
  decreasing_by
    have hne : extract_post_listing data ≠ [] := by simpa using hraw
    have hlen : 0 < (extract_post_listing data).length :=
      List.length_pos.mpr hne
    omega

/-- Embedding of `RedditClient.get_posts` (`client.py:139-185`): run the
pagination loop with `remaining = limit`; no exception handler exists on
this path. -/
def get_posts (scripts : Nat → Nat → Sum ReqException HttpResponse)
    (limit : Nat := 100) : Except ReqException (List V) :=
  getPostsLoop scripts limit 0 [] (limit : Int)

/-- Embedding of `extract_comments_from_post_page`
(`parsers.py:191-218`): a response with fewer than two listings yields
nothing; otherwise the first listing's first child's `data` is the post
and the second listing's children are the raw comment items, read
through their structured view. -/
def extract_comments_from_post_page (response_data : List V) :
    V × List RItem :=
  if response_data.length < 2 then (V.dict [], [])
  else
    let post_children := vChildren ((response_data.get? 0).getD V.nil)
    let post_data :=
      match post_children.head? with
      | some c => (vGet c "data").getD (V.dict [])
      | none => V.dict []
    (post_data,
      (vChildren ((response_data.get? 1).getD V.nil)).map ritemOfV)

/-- Embedding of `RedditClient.get_post_comments` (`client.py:187-218`):
issue one request (exceptions, the 404 `RedditAPIError` included,
propagate unhandled), return `({}, [])` for a non-list body, otherwise
the parsed post and the flattened comment tree (default depth bound
10). -/
def get_post_comments (postId : String)
    (script : Nat → Sum ReqException HttpResponse) :
    Except ReqException (V × List Comment) :=
  match (RedditClient.request script).2.1 with
  | .error e => .error e
  | .ok data =>
    match data with
    | V.arr elems =>
      .ok (parse_post (extract_comments_from_post_page elems).1,
        parse_comments_tree (extract_comments_from_post_page elems).2
          postId 0 10)
    | _ => .ok (V.dict [], [])

/-- Response carrying HTTP 429 with `Retry-After: 60`. -/
def resp429 : HttpResponse := { status := 429, retryAfter := some 60 }

/-- Response carrying HTTP 404. -/
def resp404 : HttpResponse := { status := 404 }

/-- C2: evaluating the request path on a server that answers 429 with
`Retry-After: 60`.  The client sleeps the announced 60 seconds and then
raises `RedditAPIError("Rate limited", 429)` after exactly one attempt —
no retry happens, because the tenacity predicate accepts only
`httpx.TimeoutException` and `httpx.NetworkError`, and `RedditAPIError`
is not among them.  The claim (and the source's own comment
`# Rate limited - wait and retry`) say the same request is retried after
the sleep. -/
theorem C2_rate_limited_sleeps_but_never_retries :
    RedditClient.request (fun _ => .inr resp429) =
      ([60], Except.error (.redditAPIError "Rate limited" (some 429)), 1) ∧
    retriableException (.redditAPIError "Rate limited" (some 429)) = false ∧
    retriableException .timeoutExc = true ∧
    retriableException .networkExc = true := by
  refine ⟨rfl, rfl, rfl, rfl⟩

/-- C9 counterexample: `get_subreddit_about` against a server that
answers 404 raises `RedditAPIError("Not found", 404)` to its caller —
this fetch operation does not surface the 404 as an absence, refuting
the claim for "every collection-client fetch operation". -/
theorem C9_counterexample :
    get_subreddit_about "ghost" (fun _ => .inr resp404) =
      Except.error (.redditAPIError "Not found" (some 404)) := rfl

/-- C9 (amended): a 404 response is never retried (the retry predicate
rejects every `RedditAPIError`, and the request ends after attempt 1);
`get_user_about` alone converts the 404 into an explicit `None`; every
other fetch operation — `get_subreddit_about`, `get_posts` (for any
positive limit, on its first page request) and `get_post_comments` —
raises the `RedditAPIError` to its caller. -/
theorem C9_not_found_handling (script : Nat → Sum ReqException HttpResponse)
    (resp : HttpResponse) (username sub : String)
    (hresp : script 1 = .inr resp) (h404 : resp.status = 404)
    (huser : ¬ (username = "" ∨ username = "[deleted]" ∨
      username = "AutoModerator")) :
    (∀ m c, retriableException (.redditAPIError m c) = false) ∧
    (RedditClient.request script).2.2 = 1 ∧
    (RedditClient.request script).2.1 =
      Except.error (.redditAPIError "Not found" (some 404)) ∧
    get_user_about username script = .ok none ∧
    get_subreddit_about sub script =
      Except.error (.redditAPIError "Not found" (some 404)) ∧
    (∀ limit : Nat, 0 < limit →
      get_posts (fun _ => script) limit =
        Except.error (.redditAPIError "Not found" (some 404))) ∧
    (∀ postId : String,
      get_post_comments postId script =
        Except.error (.redditAPIError "Not found" (some 404))) := by
  have hclass : classifyResponse resp =
      ([], Except.error (.redditAPIError "Not found" (some 404))) := by
    simp [classifyResponse, h404]
  have hreq : RedditClient.request script =
      ([], Except.error (.redditAPIError "Not found" (some 404)), 1) := by
    unfold RedditClient.request
    rw [runRequestAux]
    simp [attemptOutcome, hresp, hclass, retriableException]
  have hreqAux : runRequestAux script 1 2 =
      ([], Except.error (.redditAPIError "Not found" (some 404)), 1) := hreq
  refine ⟨fun m c => rfl, by rw [hreq], by rw [hreq], ?_, ?_, ?_, ?_⟩
  · unfold get_user_about
    rw [if_neg huser, hreq]
  · unfold get_subreddit_about
    rw [hreq]
  · intro limit hlimit
    have hlimit2 : (0 : Int) < (limit : Int) := by exact_mod_cast hlimit
    unfold get_posts
    rw [getPostsLoop]
    simp only [hreqAux]
    rw [dif_pos hlimit2]
  · intro postId
    unfold get_post_comments
    rw [hreq]

/-- C9 witness: the amended statement at a concrete 404 run for user
`"alice"`, subreddit `"ghost"`, post `"p7"` and the default post limit
100. -/
theorem C9_not_found_handling_witness :
    ((fun _ => Sum.inr resp404 :
        Nat → Sum ReqException HttpResponse) 1 = .inr resp404) ∧
    resp404.status = 404 ∧ 0 < 100 ∧
    get_user_about "alice" (fun _ => .inr resp404) = .ok none ∧
    get_posts (fun _ _ => .inr resp404) 100 =
      Except.error (.redditAPIError "Not found" (some 404)) ∧
    get_post_comments "p7" (fun _ => .inr resp404) =
      Except.error (.redditAPIError "Not found" (some 404)) :=
  ⟨rfl, rfl, by decide,
    (C9_not_found_handling (fun _ => .inr resp404) resp404 "alice" "ghost"
      rfl rfl (by simp)).2.2.2.1,
    (C9_not_found_handling (fun _ => .inr resp404) resp404 "alice" "ghost"
      rfl rfl (by simp)).2.2.2.2.2.1 100 (by decide),
    (C9_not_found_handling (fun _ => .inr resp404) resp404 "alice" "ghost"
      rfl rfl (by simp)).2.2.2.2.2.2 "p7"⟩

/-! ## Workflow state (`src/state/schema.py`, `src/state/enums.py`)

`WorkflowState` is a `TypedDict(total=False)`; the structure below holds
the `state.get(...)` view of each field the embedded code reads, with the
read-default as the structure default.  A node's partial update is a
structure of `Option` fields (`none` = key absent from the returned
dict). -/

/-- Lifecycle status enum `WorkflowStatus`. -/
inductive WorkflowStatus where
  | pending | running | completed | failed | cancelled
  deriving Repr, DecidableEq

/-- Phase enum `AnalysisPhase`. -/
inductive AnalysisPhase where
  | init | collecting | extracting | analyzing | synthesizing
  | outputting | done
  deriving Repr, DecidableEq

/-- Collection configuration (`CollectionConfig` /
`DEFAULT_COLLECTION_CONFIG`). -/
structure CollectionConfig where
  postsLimit : Nat := 100
  commentsLimit : Nat := 50
  sortMethods : List String := ["hot", "top", "new"]
  timeFilter : String := "week"
  fetchAuthors : Bool := false
  deriving Repr, DecidableEq

/-- Community info dict built by `store_to_db` / `load_existing`. -/
structure CommunityInfo where
  name : String := ""
  displayName : String := ""
  description : String := ""
  subscribers : Int := 0
  communityId : Nat := 0
  deriving Repr, DecidableEq

/-- Python truthiness of a string. -/
def truthyStr (s : String) : Bool := !(s == "")

/-- Python truthiness of an optional integer field read with
`state.get(...)`: absent and `0` are both falsy. -/
def truthyOptNat (o : Option Nat) : Bool := !(o.getD 0 == 0)

/-- Python truthiness of an optional string field read with
`state.get(...)`: absent and `""` are both falsy. -/
def truthyOptStr (o : Option String) : Bool := !(o.getD "" == "")

/-- The workflow run state (the `state.get` view of `WorkflowState`). -/
structure WState where
  status : WorkflowStatus := .pending
  phase : AnalysisPhase := .init
  communityName : String := ""
  skipCollection : Bool := false
  skipAi : Bool := false
  existingRunId : Option Nat := none
  outputDir : String := "./output"
  collectionConfig : CollectionConfig := {}
  communityInfo : Option CommunityInfo := none
  communityId : Option Nat := none
  collectionRunId : Option Nat := none
  postsCollected : Option Nat := none
  commentsCollected : Option Nat := none
  posts : List Post := []
  comments : List Comment := []
  topPosts : List Post := []
  topComments : List Comment := []
  extractionResults : StrMap V := []
  aiAnalysis : StrMap V := []
  synthesis : StrMap V := []
  error : Option String := none
  errors : List String := []

/-- A node's partial state update: exactly the keys any embedded node ever
returns, each optional (`none` = key absent from the returned dict). -/
structure Upd where
  status : Option WorkflowStatus := none
  phase : Option AnalysisPhase := none
  communityInfo : Option CommunityInfo := none
  communityId : Option Nat := none
  collectionRunId : Option Nat := none
  postsCollected : Option Nat := none
  commentsCollected : Option Nat := none
  posts : Option (List Post) := none
  comments : Option (List Comment) := none
  topPosts : Option (List Post) := none
  topComments : Option (List Comment) := none
  extractionResults : Option (StrMap V) := none
  aiAnalysis : Option (StrMap V) := none
  synthesis : Option (StrMap V) := none
  error : Option String := none
  errors : Option (List String) := none

/-- How the engine folds a node's partial update into the run state:
`accumulated_state.update(node_output)` in `run_analysis`
(`graph.py:467-477`), which is also LangGraph's default last-value
channel semantics for a `TypedDict` whose fields carry no reducer
annotation (`WorkflowState` attaches none — `merge_dicts` and
`append_errors` are defined in `schema.py` but never wired to a field).
Every key present in the update replaces the previous value wholesale;
absent keys keep their value. -/
def applyUpd (s : WState) (u : Upd) : WState :=
  { s with
    status := u.status.getD s.status
    phase := u.phase.getD s.phase
    communityInfo := match u.communityInfo with
      | some x => some x
      | none => s.communityInfo
    communityId := match u.communityId with
      | some x => some x
      | none => s.communityId
    collectionRunId := match u.collectionRunId with
      | some x => some x
      | none => s.collectionRunId
    postsCollected := match u.postsCollected with
      | some x => some x
      | none => s.postsCollected
    commentsCollected := match u.commentsCollected with
      | some x => some x
      | none => s.commentsCollected
    posts := u.posts.getD s.posts
    comments := u.comments.getD s.comments
    topPosts := u.topPosts.getD s.topPosts
    topComments := u.topComments.getD s.topComments
    extractionResults := u.extractionResults.getD s.extractionResults
    aiAnalysis := u.aiAnalysis.getD s.aiAnalysis
    synthesis := u.synthesis.getD s.synthesis
    error := match u.error with
      | some e => some e
      | none => s.error
    errors := u.errors.getD s.errors }

/-- Embedding of `create_initial_state` (`schema.py:208-251`). -/
def create_initial_state (communityName : String) (skipAi : Bool := false)
    (skipCollection : Bool := false) (existingRunId : Option Nat := none)
    (outputDir : String := "./output")
    (cfg : CollectionConfig := {}) : WState :=
  { status := .pending
    phase := .init
    communityName := communityName
    skipCollection := skipCollection
    skipAi := skipAi
    existingRunId := existingRunId
    outputDir := outputDir
    collectionConfig := cfg
    posts := []
    comments := []
    topPosts := []
    topComments := []
    extractionResults := []
    aiAnalysis := []
    synthesis := []
    errors := [] }

/-! ## Routers (`src/workflow/routing.py`) -/

/-- Embedding of `should_collect_data` (`routing.py:8-23`). -/
def should_collect_data (s : WState) : String :=
  if s.skipCollection then "load_existing"
  else if truthyOptNat s.existingRunId then "load_existing"
  else "collect"

/-- Embedding of `should_run_ai` (`routing.py:26-43`). -/
def should_run_ai (s : WState) : String :=
  if s.skipAi then "skip_to_output"
  else if s.posts.isEmpty then "skip_to_output"
  else "analyze"

/-- Embedding of `check_for_errors` (`routing.py:46-64`). -/
def check_for_errors (s : WState) : String :=
  if truthyOptStr s.error then "abort"
  else if s.phase = .collecting ∧ s.posts.isEmpty then "abort"
  else "continue"

/-! ## External collaborators

The persistence store and the network are external to the embedded code;
their answers for one run are packaged below and quantified over in the
theorems. -/

/-- Community row as the repositories return it. -/
structure StoredCommunity where
  id : Nat := 1
  name : String := ""
  displayName : String := ""
  description : String := ""
  subscribers : Int := 0
  deriving Repr, DecidableEq

/-- Collection-run row with its owning community relationship. -/
structure StoredRun where
  id : Nat := 1
  community : StoredCommunity := {}
  deriving Repr, DecidableEq

/-- Persistence store answers used by `load_existing_data_node`. -/
structure Store where
  sessionOk : Bool := true
  sessionError : String := ""
  getCollectionRun : Nat → Option StoredRun := fun _ => none
  getByName : String → Option StoredCommunity := fun _ => none
  getLatestRun : Nat → Option StoredRun := fun _ => none
  postsOfRun : Nat → List Post := fun _ => []
  commentsOfRun : Nat → List Comment := fun _ => []

/-- One run's external-world answers: database reachability probed by
`init_node`, the collection client's answers to the two fetch nodes, the
outcome of the `store_to_db` persistence transaction (community id, run
id, community info on success, the exception text on failure), the
outcome of the save transaction inside `output`, and the store queried by
`load_existing_data_node`. -/
structure World where
  dbOk : Bool := true
  store : Store := {}
  fetchPostsResult : Except String (List Post) := .ok []
  fetchCommentsResult : Except String (List Comment) := .ok []
  storeOutcome : Except String (Nat × Nat × CommunityInfo) := .ok (1, 1, {})
  saveResult : Option String := none

/-! ## Nodes (`src/workflow/graph.py` and `src/workflow/nodes/`) -/

/-- Embedding of `init_node` (`graph.py:44-74`): fail on a missing
community name or an unreachable database; otherwise mark the run
running in phase `INIT`. -/
def init_node (w : World) (s : WState) : Upd :=
  if ¬ truthyStr s.communityName then
    { status := some .failed, error := some "No community name provided" }
  else if ¬ w.dbOk then
    { status := some .failed, error := some "Database connection failed" }
  else
    { status := some .running, phase := some .init }

/-- Stable insertion of `x` into a score-descending list: `x` goes after
every earlier element whose key is at least as large. -/
def insertByKeyDesc (key : α → Int) (x : α) : List α → List α
  | [] => [x]
  | y :: ys =>
    if key y < key x then x :: y :: ys else y :: insertByKeyDesc key x ys

/-- Python `sorted(l, key=key, reverse=True)`: stable, descending. -/
def sortByKeyDesc (key : α → Int) (l : List α) : List α :=
  l.foldl (fun acc x => insertByKeyDesc key x acc) []

/-- Embedding of `fetch_posts_node`
(`src/workflow/nodes/collection/fetch_posts.py:37-93`): on success sort
the client's deduplicated posts by score, cap at `posts_limit`, keep the
top 20 for detailed analysis and enter phase `COLLECTING`; on an
exception record the error strings. -/
def fetch_posts_node (w : World) (s : WState) : Upd :=
  let postsLimit := s.collectionConfig.postsLimit
  match w.fetchPostsResult with
  | .ok fetched =>
    let posts := (sortByKeyDesc Post.score fetched).take postsLimit
    { phase := some .collecting
      posts := some posts
      topPosts := some (posts.take (min 20 posts.length))
      postsCollected := some posts.length }
  | .error e =>
    { error := some ("Failed to fetch posts: " ++ e)
      errors := some ["Post fetch error: " ++ e] }

/-- Embedding of `fetch_comments_node`
(`src/workflow/nodes/collection/fetch_comments.py:53-112`): nothing to do
without top posts; otherwise sort the fetched comments by score and keep
the top 50; on an exception record the error strings. -/
def fetch_comments_node (w : World) (s : WState) : Upd :=
  if s.topPosts.isEmpty then
    { comments := some [], topComments := some [], commentsCollected := some 0 }
  else
    match w.fetchCommentsResult with
    | .ok fetched =>
      let comments := sortByKeyDesc Comment.score fetched
      { comments := some comments
        topComments := some (comments.take (min 50 comments.length))
        commentsCollected := some comments.length }
    | .error e =>
      { error := some ("Failed to fetch comments: " ++ e)
        errors := some ["Comment fetch error: " ++ e]
        comments := some []
        topComments := some []
        commentsCollected := some 0 }

/-- Embedding of `store_to_db_node`
(`src/workflow/nodes/collection/store_to_db.py:19-129`): the transaction
itself (get-or-create community, create run, bulk insert, complete run)
belongs to the external persistence contract; its outcome is the
world's answer.  Success returns the ids and the community info;
an exception records the error strings. -/
def store_to_db_node (w : World) (_s : WState) : Upd :=
  match w.storeOutcome with
  | .ok (communityId, runId, info) =>
    { communityId := some communityId
      collectionRunId := some runId
      communityInfo := some info }
  | .error e =>
    { error := some ("Failed to store data: " ++ e)
      errors := some ["Database store error: " ++ e] }

/-- Embedding of `load_existing_data_node` (`graph.py:77-176`): a
requested run id that the store does not contain, an unknown community,
or a community without runs each yield an `error` update; a found run
loads its rows, derives the top items and jumps to phase `EXTRACTING`;
a session exception is caught into an `error` update as well. -/
def load_existing_data_node (w : World) (s : WState) : Upd :=
  if ¬ w.store.sessionOk then
    { error := some ("Failed to load existing data: " ++ w.store.sessionError) }
  else
    match
      (if truthyOptNat s.existingRunId then
        match w.store.getCollectionRun (s.existingRunId.getD 0) with
        | some run => Except.ok run
        | none => Except.error
            ("Collection run " ++ toString (s.existingRunId.getD 0) ++
              " not found")
      else
        match w.store.getByName s.communityName with
        | none => Except.error ("Community " ++ s.communityName ++ " not found")
        | some community =>
          match w.store.getLatestRun community.id with
          | some run => Except.ok run
          | none => Except.error
              ("No collection runs found for " ++ s.communityName)) with
    | .error e => { error := some e }
    | .ok run =>
      let posts := w.store.postsOfRun run.id
      let comments := w.store.commentsOfRun run.id
      { collectionRunId := some run.id
        communityId := some run.community.id
        communityInfo := some
          { name := run.community.name
            displayName := run.community.displayName
            description := run.community.description
            subscribers := run.community.subscribers
            communityId := run.community.id }
        posts := some posts
        comments := some comments
        topPosts := some (posts.take 20)
        topComments := some ((sortByKeyDesc Comment.score comments).take 50)
        postsCollected := some posts.length
        commentsCollected := some comments.length
        phase := some .extracting }

/-! ## Extraction nodes (`src/workflow/nodes/extraction/`)

Each node returns `{"extraction_results": {<its category keys>: ...}}`
and nothing else.  The empty-posts defaults are embedded verbatim; the
statistics computed for non-empty inputs are opaque payloads (see the
header).  For `extract_audience`, which has no explicit empty-input
early return, the embedded empty case is what its code computes on no
posts and no comments: no regex pattern matches the empty text (each
demands at least one character), so every counter is empty, the dominant
skill is `"unknown"`, the budget profile `"mixed"` (0 vs 0), the pain
total 0 and the skepticism level `"low"` (frustration ratio 0/1). -/

/-- Empty-posts default of `extract_scores_node` (`extract_scores.py:23-34`). -/
def scoreDistributionEmpty : V :=
  .dict [("min", .i 0), ("max", .i 0), ("avg", .i 0), ("median", .i 0),
    ("total_posts", .i 0), ("buckets", .dict [])]

/-- Embedding of `extract_scores_node` (`extract_scores.py:8-94`). -/
def extract_scores_node (s : WState) : Upd :=
  if s.posts.isEmpty then
    { extractionResults := some [("score_distribution", scoreDistributionEmpty)] }
  else
    { extractionResults :=
        some [("score_distribution", V.payload "score_distribution")] }

/-- Embedding of `extract_flairs_node` (`extract_flairs.py:9-66`). -/
def extract_flairs_node (s : WState) : Upd :=
  if s.posts.isEmpty then
    { extractionResults := some [("flair_distribution",
        .dict [("flairs", .dict []), ("no_flair_count", .i 0),
          ("total_posts", .i 0), ("unique_flairs", .i 0)])] }
  else
    { extractionResults :=
        some [("flair_distribution", V.payload "flair_distribution")] }

/-- Embedding of `extract_timing_node` (`extract_timing.py:10-134`). -/
def extract_timing_node (s : WState) : Upd :=
  if s.posts.isEmpty then
    { extractionResults := some [("timing_patterns",
        .dict [("by_hour", .dict []), ("by_day", .dict []),
          ("best_hour", .nil), ("best_day", .nil)])] }
  else
    { extractionResults :=
        some [("timing_patterns", V.payload "timing_patterns")] }

/-- Embedding of `extract_titles_node` (`extract_titles.py:9-136`). -/
def extract_titles_node (s : WState) : Upd :=
  if s.posts.isEmpty then
    { extractionResults := some [("title_analysis",
        .dict [("avg_length", .i 0), ("patterns", .dict []),
          ("word_frequency", .dict [])])] }
  else
    { extractionResults :=
        some [("title_analysis", V.payload "title_analysis")] }

/-- Embedding of `extract_engagement_node` (`extract_engagement.py:8-140`):
the single node that writes three category keys. -/
def extract_engagement_node (s : WState) : Upd :=
  if s.posts.isEmpty then
    { extractionResults := some [
        ("op_engagement_analysis", .dict []),
        ("upvote_ratio_analysis", .dict []),
        ("post_format_analysis", .dict [])] }
  else
    { extractionResults := some [
        ("op_engagement_analysis", V.payload "op_engagement_analysis"),
        ("upvote_ratio_analysis", V.payload "upvote_ratio_analysis"),
        ("post_format_analysis", V.payload "post_format_analysis")] }

/-- What `extract_audience_node` computes when there are no posts and no
comments (see the section comment). -/
def audienceExtractionEmpty : V :=
  .dict [
    ("self_identifications", .dict []),
    ("skill_levels", .dict [("distribution", .dict []),
      ("dominant", .s "unknown")]),
    ("goals_sample", .arr []),
    ("tools_mentioned", .dict []),
    ("budget_signals", .dict [("distribution", .dict []),
      ("profile", .s "mixed")]),
    ("pain_points", .dict [("distribution", .dict []),
      ("total_mentions", .i 0)]),
    ("skepticism_level", .s "low"),
    ("analysis_stats", .dict [("posts_analyzed", .i 0),
      ("comments_analyzed", .i 0), ("total_text_length", .i 0)])]

/-- Embedding of `extract_audience_node` (`extract_audience.py:71-187`). -/
def extract_audience_node (s : WState) : Upd :=
  if s.posts.isEmpty ∧ s.comments.isEmpty then
    { extractionResults :=
        some [("audience_extraction", audienceExtractionEmpty)] }
  else
    { extractionResults :=
        some [("audience_extraction", V.payload "audience_extraction")] }

/-- The eight category keys `merge_extraction_node` expects
(`merge_extraction.py:26-35`). -/
def expectedExtractionKeys : List String :=
  ["score_distribution", "flair_distribution", "timing_patterns",
   "title_analysis", "op_engagement_analysis", "upvote_ratio_analysis",
   "post_format_analysis", "audience_extraction"]

/-- Round-half-to-even on rationals, the rounding of Python's `round`
(decimal semantics; `round` on binary floats can differ from it by one
ulp of the decimal, a difference no theorem below relies on). -/
def roundHalfEven (x : ℚ) : Int :=
  if x - ⌊x⌋ < 1/2 then ⌊x⌋
  else if 1/2 < x - ⌊x⌋ then ⌊x⌋ + 1
  else if ⌊x⌋ % 2 = 0 then ⌊x⌋ else ⌊x⌋ + 1

/-- Python `round(x, 2)`. -/
def pyRound2 (x : ℚ) : ℚ := (roundHalfEven (x * 100) : ℚ) / 100

/-- Count of `len(set(...))` over post authors that are truthy and not
`"[deleted]"` (`merge_extraction.py:57-60`). -/
def uniqueAuthorsCount (posts : List Post) : Nat :=
  (((posts.filterMap Post.authorName).filter
    (fun a => !(a == "") && !(a == "[deleted]"))).dedup).length

/-- Embedding of `merge_extraction_node` (`merge_extraction.py:8-69`):
fill an empty dict for each of the eight expected category keys that is
absent, compute the summary — whose `extraction_complete` flag is true
exactly when nothing was missing — store it under `"summary"`, and enter
phase `ANALYZING`. -/
def merge_extraction_node (s : WState) : Upd :=
  let extraction_results := s.extractionResults
  let missing := expectedExtractionKeys.filter
    (fun k => ! extraction_results.containsKey k)
  let filled := missing.foldl
    (fun m k => StrMap.setKey m k (V.dict [])) extraction_results
  let summary : V := .dict [
    ("total_posts", .i s.posts.length),
    ("total_comments", .i s.comments.length),
    ("avg_post_score", .q (if s.posts.isEmpty then 0 else
      pyRound2 (((s.posts.map Post.score).sum : ℚ) / (s.posts.length : ℚ)))),
    ("avg_comment_score", .q (if s.comments.isEmpty then 0 else
      pyRound2 (((s.comments.map Comment.score).sum : ℚ) /
        (s.comments.length : ℚ)))),
    ("unique_authors", .i (uniqueAuthorsCount s.posts)),
    ("extraction_complete", .b (missing.length == 0))]
  { extractionResults := some (StrMap.setKey filled "summary" summary)
    phase := some .analyzing }

/-! ## Analysis, synthesis and terminal nodes

The four AI analysis nodes and the three synthesis nodes call the
external analysis capability (spec section 6); each writes only the
category keys shown in its source return statements, with the capability
outcome as an opaque payload.  They execute only in runs with a
non-empty post list (the pre-analysis router skips them otherwise), which
no claim exercises further. -/

/-- Embedding (category-shape level) of `analyze_sentiment_node`. -/
def analyze_sentiment_node (s : WState) : Upd :=
  { aiAnalysis := some [("sentiment_analysis",
      V.payload (if s.posts.isEmpty then "sentiment_no_posts"
        else "sentiment_analysis"))] }

/-- Embedding (category-shape level) of `analyze_pain_points_node`. -/
def analyze_pain_points_node (s : WState) : Upd :=
  { aiAnalysis := some [("pain_point_analysis",
      V.payload (if s.posts.isEmpty then "pain_point_no_posts"
        else "pain_point_analysis"))] }

/-- Embedding (category-shape level) of `analyze_tone_node`. -/
def analyze_tone_node (s : WState) : Upd :=
  { aiAnalysis := some [("tone_analysis",
      V.payload (if s.posts.isEmpty then "tone_no_posts"
        else "tone_analysis"))] }

/-- Embedding (category-shape level) of `analyze_promotion_node`. -/
def analyze_promotion_node (s : WState) : Upd :=
  { aiAnalysis := some [("promotion_analysis",
      V.payload (if s.posts.isEmpty then "promotion_no_posts"
        else "promotion_analysis"))] }

/-- The four category keys `merge_analysis_node` expects
(`merge_analysis.py:23-28`). -/
def expectedAnalysisKeys : List String :=
  ["sentiment_analysis", "pain_point_analysis", "tone_analysis",
   "promotion_analysis"]

/-- Embedding of `merge_analysis_node` (`merge_analysis.py:8-59`): fill
an error marker for each absent expected category, add a summary (its
fields read the opaque capability payloads and stay opaque here) under
`"summary"`, and enter phase `SYNTHESIZING`. -/
def merge_analysis_node (s : WState) : Upd :=
  let ai := s.aiAnalysis
  let missing := expectedAnalysisKeys.filter (fun k => ! ai.containsKey k)
  let filled := missing.foldl
    (fun m k => StrMap.setKey m k
      (V.dict [("error", V.s "Analysis not performed")])) ai
  { aiAnalysis :=
      some (StrMap.setKey filled "summary" (V.payload "analysis_summary"))
    phase := some .synthesizing }

/-- Embedding (category-shape level) of `generate_personas_node`
(`generate_personas.py`): writes `synthesis.personas` only. -/
def generate_personas_node (_s : WState) : Upd :=
  { synthesis := some [("personas", V.payload "personas")] }

/-- Embedding (category-shape level) of `generate_insights_node`
(`generate_insights.py`): spreads the previous synthesis dict itself and
adds `insights` — the node, not the engine, preserves earlier keys. -/
def generate_insights_node (s : WState) : Upd :=
  { synthesis :=
      some (merge_dicts s.synthesis [("insights", V.payload "insights")]) }

/-- Embedding (category-shape level) of `generate_report_node`
(`generate_report.py`): spreads the previous synthesis dict and adds
`report_content`. -/
def generate_report_node (s : WState) : Upd :=
  { synthesis := some (merge_dicts s.synthesis
      [("report_content", V.payload "report_content")]) }

/-- Embedding of `save_analysis_node` (`graph.py:179-252`): nothing to
save without a collection-run id; otherwise the persistence writes are
the external save transaction, whose failure text (if any) becomes an
`errors` entry and whose success returns the empty update. -/
def save_analysis_node (w : World) (s : WState) : Upd :=
  if ¬ truthyOptNat s.collectionRunId then {}
  else
    match w.saveResult with
    | none => {}
    | some e => { errors := some ["Failed to save analysis: " ++ e] }

/-- Embedding of `output_node` (`graph.py:255-275`): run the save step,
concatenate its error strings onto the accumulated ones, set the final
status — `COMPLETED` unless the fatal `error` field is truthy, `FAILED`
otherwise — and finish in phase `DONE`. -/
def output_node (w : World) (s : WState) : Upd :=
  let save_result := save_analysis_node w s
  { status := some (if ¬ truthyOptStr s.error then .completed else .failed)
    phase := some .done
    errors := some (s.errors ++ (save_result.errors.getD [])) }

/-- Embedding of `error_node` (`graph.py:278-290`). -/
def error_node (_s : WState) : Upd :=
  { status := some .failed, phase := some .done }

/-- Embedding of the inline `check_collection_node` router stub
(`graph.py:364-365`), an empty update. -/
def check_collection_node (_s : WState) : Upd := {}

/-- Embedding of the inline `check_ai_node` router stub
(`graph.py:393-394`), an empty update. -/
def check_ai_node (_s : WState) : Upd := {}

/-! ## The assembled graph (`create_workflow` / `run_analysis`,
`graph.py:309-477`)

Execution is a single-threaded walk along the graph's edges; after each
node the engine folds the returned partial update into the accumulated
state with `applyUpd` (see its doc comment).  The conditional edges
resolve the three routers against the label tables given to
`add_conditional_edges`. -/

/-- Fold a node sequence (sequential edges) through the engine. -/
def runNodes (nodes : List (WState → Upd)) (s : WState) : WState :=
  nodes.foldl (fun st node => applyUpd st (node st)) s

/-- The extraction fan-out in its wiring order
(`graph.py:381-390`): scores → flairs → timing → titles → engagement →
audience. -/
def extractionSequence : List (WState → Upd) :=
  [extract_scores_node, extract_flairs_node, extract_timing_node,
   extract_titles_node, extract_engagement_node, extract_audience_node]

/-- The analysis fan-out in its wiring order (`graph.py:410-413`). -/
def analysisSequence : List (WState → Upd) :=
  [analyze_sentiment_node, analyze_pain_points_node, analyze_tone_node,
   analyze_promotion_node]

/-- The synthesis chain in its wiring order (`graph.py:416-419`). -/
def synthesisSequence : List (WState → Upd) :=
  [generate_personas_node, generate_insights_node, generate_report_node]

/-- Walk shared by both collection branches: the extraction fan-out, its
merge, the AI routing stub, then either the analysis/synthesis chain or
the direct jump to `output` (`graph.py:381-422`). -/
def postCollectionTail (w : World) (s : WState) : WState :=
  let s4 := runNodes extractionSequence s
  let s5 := applyUpd s4 (merge_extraction_node s4)
  let s6 := applyUpd s5 (check_ai_node s5)
  if should_run_ai s6 == "skip_to_output" then
    applyUpd s6 (output_node w s6)
  else
    let s7 := runNodes analysisSequence s6
    let s8 := applyUpd s7 (merge_analysis_node s7)
    let s9 := runNodes synthesisSequence s8
    applyUpd s9 (output_node w s9)

/-- One complete run of the compiled workflow on an initial state: the
walk of `create_workflow`'s graph with `run_analysis`'s accumulation. -/
def runWorkflowModel (w : World) (s0 : WState) : WState :=
  let s1 := applyUpd s0 (init_node w s0)
  if check_for_errors s1 == "abort" then
    applyUpd s1 (error_node s1)
  else
    let s2 := applyUpd s1 (check_collection_node s1)
    let s3 :=
      if should_collect_data s2 == "load_existing" then
        applyUpd s2 (load_existing_data_node w s2)
      else
        let sa := applyUpd s2 (fetch_posts_node w s2)
        let sb := applyUpd sa (fetch_comments_node w sa)
        applyUpd sb (store_to_db_node w sb)
    postCollectionTail w s3

/-- In a run that reaches extraction with no posts, the tail of the graph
only fills extraction defaults, skips analysis via the pre-analysis
router, and finishes through `output`: the final status is `completed`
exactly when no fatal error is set, the phase is `done`, and the
error/posts-collected fields pass through unchanged. -/
lemma postCollectionTail_no_posts (w : World) (s : WState)
    (hposts : s.posts = []) :
    (postCollectionTail w s).status =
      (if ¬ truthyOptStr s.error then WorkflowStatus.completed
       else WorkflowStatus.failed) ∧
    (postCollectionTail w s).phase = AnalysisPhase.done ∧
    (postCollectionTail w s).postsCollected = s.postsCollected ∧
    (postCollectionTail w s).error = s.error := by
  obtain ⟨st, ph, nm, skc, ska, eri, od, cf, ci, cid, crid, pc, cc,
    posts, cmts, tp, tc, exr, ai, syn, err, errs⟩ := s
  simp only at hposts
  subst hposts
  by_cases hc : cmts.isEmpty <;> cases ska <;>
    simp [postCollectionTail, runNodes, extractionSequence,
      extract_scores_node, extract_flairs_node, extract_timing_node,
      extract_titles_node, extract_engagement_node, extract_audience_node,
      merge_extraction_node, check_ai_node, should_run_ai, output_node,
      save_analysis_node, applyUpd, hc]

/-! ## Claim C6 — the pre-analysis router -/

/-- C6: the pre-analysis router returns `"skip_to_output"` exactly when
the caller disabled AI analysis or no posts were collected, and
`"analyze"` otherwise. -/
theorem C6_pre_analysis_router (s : WState) :
    should_run_ai s =
      (if s.skipAi || s.posts.isEmpty then "skip_to_output"
       else "analyze") := by
  unfold should_run_ai
  by_cases h1 : s.skipAi <;> by_cases h2 : s.posts.isEmpty <;>
    simp [h1, h2]

/-! ## Claim C1 — engine merge of category maps -/

/-- A zero-post run state entering the extraction fan-out. -/
def emptyCollectionState : WState := create_initial_state "testsub"

/-- C1 evaluated at the failing input: the first fan-out step writes the
category key `"score_distribution"`, yet after the whole fan-out the
accumulated `extraction_results` holds only the last step's key — each
node's update replaced the category map wholesale, because the engine
folds updates with `dict.update` / LangGraph last-value channels and no
reducer is attached to the field.  The claimed per-field shallow-merge
would have kept every category key. -/
theorem C1_engine_replaces_category_maps :
    (extract_scores_node emptyCollectionState).extractionResults =
      some [("score_distribution", scoreDistributionEmpty)] ∧
    (runNodes extractionSequence emptyCollectionState).extractionResults =
      [("audience_extraction", audienceExtractionEmpty)] ∧
    StrMap.lookup
      (runNodes extractionSequence emptyCollectionState).extractionResults
      "score_distribution" = none := by
  exact ⟨rfl, rfl, rfl⟩

/-- Had the schema's own `merge_dicts` reducer been attached to
`extraction_results`, the fan-out updates would have accumulated every
category key (the behaviour the spec describes); this supports reading
the missing annotation as a slip rather than intent. -/
theorem merge_dicts_reducer_keeps_all_categories :
    (expectedExtractionKeys.all (fun k =>
      StrMap.containsKey
        (extractionSequence.foldl
          (fun acc node => merge_dicts acc
            ((node emptyCollectionState).extractionResults.getD []))
          []) k)) = true := by
  exact rfl

/-! ## Claim C4 — runs that collect zero items -/

/-- World in which the community exists, the database works, and the
collection client finds no posts at all. -/
def zeroItemWorld : World := {}

/-- The zero-item run, end to end. -/
def zeroItemRun : WState :=
  runWorkflowModel zeroItemWorld (create_initial_state "emptysub")

/-- C4 counterexample: a run whose collection completes successfully with
zero items is not routed to the failure terminal — it ends with final
status `completed` (phase `done`, no fatal error), because the only
router that can abort runs immediately after `init`, when the phase is
still `INIT`, so its `COLLECTING`-with-no-posts abort branch never
fires; the zero-post run instead takes the `skip_to_output` edge. -/
theorem C4_counterexample :
    zeroItemRun.postsCollected = some 0 ∧
    zeroItemRun.error = none ∧
    zeroItemRun.status = .completed ∧
    zeroItemRun.phase = .done ∧
    zeroItemRun.status ≠ .failed := by
  refine ⟨rfl, rfl, rfl, rfl, ?_⟩
  rw [show zeroItemRun.status = .completed from rfl]
  decide

/-- C4 (amended): a run started with collection enabled whose client
fetch succeeds with zero posts and whose store transaction succeeds ends
with final status `completed`, phase `done`, zero items and no fatal
error — the whole run is not routed to the failure terminal (matching
spec section 8, property 7, and refuting the `FatalInputError` table row
for the zero-items case). -/
theorem C4_zero_items_run_completes (w : World) (name : String)
    (skipAi : Bool) (cfg : CollectionConfig)
    (ids : Nat × Nat × CommunityInfo)
    (hname : truthyStr name = true)
    (hdb : w.dbOk = true)
    (hfetch : w.fetchPostsResult = .ok [])
    (hstore : w.storeOutcome = .ok ids) :
    (runWorkflowModel w
      (create_initial_state name skipAi false none "./output" cfg)).status =
        .completed ∧
    (runWorkflowModel w
      (create_initial_state name skipAi false none "./output" cfg)).phase =
        .done ∧
    (runWorkflowModel w
      (create_initial_state name skipAi false none "./output"
        cfg)).postsCollected = some 0 ∧
    (runWorkflowModel w
      (create_initial_state name skipAi false none "./output" cfg)).error =
        none := by
  obtain ⟨communityId, runId, info⟩ := ids
  have hrun : runWorkflowModel w
      (create_initial_state name skipAi false none "./output" cfg) =
      postCollectionTail w
        { status := .running
          phase := .collecting
          communityName := name
          skipCollection := false
          skipAi := skipAi
          existingRunId := none
          outputDir := "./output"
          collectionConfig := cfg
          communityInfo := some info
          communityId := some communityId
          collectionRunId := some runId
          postsCollected := some 0
          commentsCollected := some 0
          posts := []
          comments := []
          topPosts := []
          topComments := []
          extractionResults := []
          aiAnalysis := []
          synthesis := []
          error := none
          errors := [] } := by
    have hname2 : ¬ name = "" := by simpa [truthyStr] using hname
    simp [runWorkflowModel, create_initial_state, init_node, applyUpd,
      check_for_errors, check_collection_node, should_collect_data,
      fetch_posts_node, fetch_comments_node, store_to_db_node,
      truthyStr, truthyOptStr, truthyOptNat, hname2, hdb, hfetch, hstore,
      sortByKeyDesc]
  rw [hrun]
  have h := postCollectionTail_no_posts w
    { status := .running
      phase := .collecting
      communityName := name
      skipCollection := false
      skipAi := skipAi
      existingRunId := none
      outputDir := "./output"
      collectionConfig := cfg
      communityInfo := some info
      communityId := some communityId
      collectionRunId := some runId
      postsCollected := some 0
      commentsCollected := some 0
      posts := []
      comments := []
      topPosts := []
      topComments := []
      extractionResults := []
      aiAnalysis := []
      synthesis := []
      error := none
      errors := [] } rfl
  simpa [truthyOptStr] using h

/-- C4 witness: the amended statement at the concrete zero-item world. -/
theorem C4_zero_items_run_completes_witness :
    truthyStr "emptysub" = true ∧
    zeroItemWorld.dbOk = true ∧
    zeroItemWorld.fetchPostsResult = .ok [] ∧
    zeroItemWorld.storeOutcome = .ok (1, 1, {}) ∧
    (runWorkflowModel zeroItemWorld
      (create_initial_state "emptysub" false false none "./output"
        {})).status = .completed :=
  ⟨rfl, rfl, rfl, rfl,
    (C4_zero_items_run_completes zeroItemWorld "emptysub" false {}
      (1, 1, {}) rfl rfl rfl rfl).1⟩

/-! ## Claim C5 — load-existing with an unknown run id -/

/-- The not-found message `load_existing_data_node` records. -/
def runNotFoundMsg (rid : Nat) : String :=
  "Collection run " ++ toString rid ++ " not found"

/-- The not-found message is never the empty string. -/
lemma runNotFoundMsg_ne_empty (rid : Nat) : runNotFoundMsg rid ≠ "" := by
  intro h
  have hlen := congrArg String.length h
  rw [runNotFoundMsg, String.length_append, String.length_append] at hlen
  have h15 : "Collection run ".length = 15 := rfl
  rw [h15] at hlen
  simp at hlen

/-- C5: a run started with an existing run identity absent from the store
records the not-found message in the fatal-error field and terminates
with final status `failed` (the error survives to `output`, which turns
a truthy fatal error into `FAILED`). -/
theorem C5_missing_run_fails (w : World) (name : String) (rid : Nat)
    (skipAi skipCol : Bool) (cfg : CollectionConfig)
    (hname : truthyStr name = true)
    (hdb : w.dbOk = true)
    (hsession : w.store.sessionOk = true)
    (hrid : rid ≠ 0)
    (hmissing : w.store.getCollectionRun rid = none) :
    (runWorkflowModel w
      (create_initial_state name skipAi skipCol (some rid) "./output"
        cfg)).error = some (runNotFoundMsg rid) ∧
    (runWorkflowModel w
      (create_initial_state name skipAi skipCol (some rid) "./output"
        cfg)).status = .failed ∧
    (runWorkflowModel w
      (create_initial_state name skipAi skipCol (some rid) "./output"
        cfg)).phase = .done := by
  have hname2 : ¬ name = "" := by simpa [truthyStr] using hname
  have hrid2 : (rid == 0) = false := by simpa using hrid
  have hrun : runWorkflowModel w
      (create_initial_state name skipAi skipCol (some rid) "./output" cfg) =
      postCollectionTail w
        { status := .running
          phase := .init
          communityName := name
          skipCollection := skipCol
          skipAi := skipAi
          existingRunId := some rid
          outputDir := "./output"
          collectionConfig := cfg
          posts := []
          comments := []
          topPosts := []
          topComments := []
          extractionResults := []
          aiAnalysis := []
          synthesis := []
          error := some (runNotFoundMsg rid)
          errors := [] } := by
    cases skipCol <;>
      simp [runWorkflowModel, create_initial_state, init_node, applyUpd,
        check_for_errors, check_collection_node, should_collect_data,
        load_existing_data_node, truthyStr, truthyOptStr, truthyOptNat,
        hname2, hdb, hsession, hrid2, hmissing, runNotFoundMsg]
  rw [hrun]
  have h := postCollectionTail_no_posts w
    { status := .running
      phase := .init
      communityName := name
      skipCollection := skipCol
      skipAi := skipAi
      existingRunId := some rid
      outputDir := "./output"
      collectionConfig := cfg
      posts := []
      comments := []
      topPosts := []
      topComments := []
      extractionResults := []
      aiAnalysis := []
      synthesis := []
      error := some (runNotFoundMsg rid)
      errors := [] } rfl
  have hmsg : (runNotFoundMsg rid == "") = false := by
    simpa using runNotFoundMsg_ne_empty rid
  obtain ⟨hst, hph, hpc, herr⟩ := h
  simp only [truthyOptStr, Option.getD, hmsg, Bool.not_false,
    not_true_eq_false, if_false] at hst
  exact ⟨herr, hst, hph⟩

/-- World whose store is empty but reachable. -/
def emptyStoreWorld : World := {}

/-- C5 witness: requesting run 42 against the empty store ends failed
with the recorded not-found error. -/
theorem C5_missing_run_fails_witness :
    truthyStr "somesub" = true ∧
    emptyStoreWorld.store.getCollectionRun 42 = none ∧
    (runWorkflowModel emptyStoreWorld
      (create_initial_state "somesub" false false (some 42) "./output"
        {})).error = some (runNotFoundMsg 42) ∧
    (runWorkflowModel emptyStoreWorld
      (create_initial_state "somesub" false false (some 42) "./output"
        {})).status = .failed :=
  ⟨rfl, rfl,
    (C5_missing_run_fails emptyStoreWorld "somesub" 42 false false {}
      rfl rfl rfl (by decide) rfl).1,
    (C5_missing_run_fails emptyStoreWorld "somesub" 42 false false {}
      rfl rfl rfl (by decide) rfl).2.1⟩

/-! ## Claim C8 — merge-node completeness -/

/-- Unfolds one cons cell of a lookup. -/
lemma StrMap.lookup_cons (k0 : String) (v0 : α) (rest : StrMap α)
    (k : String) :
    StrMap.lookup ((k0, v0) :: rest) k =
      if k0 == k then some v0 else StrMap.lookup rest k := by
  by_cases h : k0 == k <;> simp [StrMap.lookup, List.find?, h]

/-- A key just written is found with its new value. -/
lemma StrMap.lookup_setKey_self (m : StrMap α) (k : String) (v : α) :
    StrMap.lookup (StrMap.setKey m k v) k = some v := by
  induction m with
  | nil => simp [StrMap.setKey, StrMap.lookup, List.find?]
  | cons kv rest ih =>
    obtain ⟨k0, v0⟩ := kv
    by_cases h : k0 == k
    · simp [StrMap.setKey, h, StrMap.lookup_cons]
    · simp [StrMap.setKey, h, StrMap.lookup_cons, ih]

/-- Writing one key leaves every other key's lookup unchanged. -/
lemma StrMap.lookup_setKey_ne (m : StrMap α) (k k' : String) (v : α)
    (h : ¬ k = k') :
    StrMap.lookup (StrMap.setKey m k v) k' = StrMap.lookup m k' := by
  induction m with
  | nil =>
    have hb : (k == k') = false := by simpa using h
    simp [StrMap.setKey, StrMap.lookup, List.find?, hb]
  | cons kv rest ih =>
    obtain ⟨k0, v0⟩ := kv
    by_cases h0 : k0 == k
    · have hk0 : k0 = k := by simpa using h0
      subst hk0
      have hb : (k0 == k') = false := by simpa using h
      simp [StrMap.setKey, StrMap.lookup_cons, hb]
    · simp [StrMap.setKey, h0, StrMap.lookup_cons, ih]

/-- The `extraction_complete` flag inside the summary of a merge-node
update. -/
def extractionCompleteFlag (u : Upd) : Option V :=
  match u.extractionResults with
  | some m =>
    match StrMap.lookup m "summary" with
    | some sm => vGet sm "extraction_complete"
    | none => none
  | none => none

/-- The six per-step extraction categories claim C8 counts (one per
fan-out step, with the engagement step counted through its
`op_engagement_analysis` key), written from the claim's words. -/
def claimSixCategories : List String :=
  ["score_distribution", "flair_distribution", "timing_patterns",
   "title_analysis", "op_engagement_analysis", "audience_extraction"]

/-- State whose extraction results hold exactly the claim's six
categories. -/
def sixCategoryState : WState :=
  { communityName := "s"
    extractionResults := claimSixCategories.map (fun k => (k, V.dict [])) }

/-- C8 counterexample: with all six of the claim's categories present —
none of the claim's expected categories missing — the merge node still
reports `extraction_complete = false`, because its expected-key list has
eight entries: the engagement step also writes `upvote_ratio_analysis`
and `post_format_analysis`, which this state lacks. -/
theorem C8_counterexample :
    (claimSixCategories.all
      (fun k => StrMap.containsKey sixCategoryState.extractionResults k)) =
        true ∧
    extractionCompleteFlag (merge_extraction_node sixCategoryState) =
      some (V.b false) := ⟨rfl, rfl⟩

/-- C8 (amended): the merge node expects eight categories
(`expectedExtractionKeys`; the engagement step produces three of them).
If exactly one of the eight is missing, the merge output sets that
category to an explicit empty map and reports
`extraction_complete = false`; if none of the eight is missing, the flag
is `true`. -/
theorem C8_merge_completeness (s : WState) :
    (∀ k, expectedExtractionKeys.filter
        (fun k2 => ! StrMap.containsKey s.extractionResults k2) = [k] →
      StrMap.lookup ((merge_extraction_node s).extractionResults.getD []) k =
        some (V.dict []) ∧
      extractionCompleteFlag (merge_extraction_node s) = some (V.b false)) ∧
    (expectedExtractionKeys.filter
        (fun k2 => ! StrMap.containsKey s.extractionResults k2) = [] →
      extractionCompleteFlag (merge_extraction_node s) = some (V.b true)) := by
  constructor
  · intro k hm
    have hkmem : k ∈ expectedExtractionKeys := by
      have : k ∈ expectedExtractionKeys.filter
          (fun k2 => ! StrMap.containsKey s.extractionResults k2) := by
        rw [hm]
        exact List.mem_singleton_self k
      exact List.mem_of_mem_filter this
    have hksum : ¬ k = "summary" := by
      simp only [expectedExtractionKeys, List.mem_cons,
        List.not_mem_nil, or_false] at hkmem
      rcases hkmem with h | h | h | h | h | h | h | h <;> subst h <;> decide
    constructor
    · simp only [merge_extraction_node, hm, List.foldl_cons,
        List.foldl_nil, Option.getD_some]
      rw [StrMap.lookup_setKey_ne _ "summary" k _ (fun hcon =>
        hksum hcon.symm)]
      exact StrMap.lookup_setKey_self _ _ _
    · simp only [extractionCompleteFlag, merge_extraction_node, hm,
        List.foldl_cons, List.foldl_nil]
      rw [StrMap.lookup_setKey_self]
      rfl
  · intro hm
    simp only [extractionCompleteFlag, merge_extraction_node, hm,
      List.foldl_nil]
    rw [StrMap.lookup_setKey_self]
    rfl

/-- State holding seven of the eight expected categories
(`flair_distribution` missing). -/
def sevenCategoryState : WState :=
  { communityName := "s"
    extractionResults :=
      (expectedExtractionKeys.filter
        (fun k => !(k == "flair_distribution"))).map
          (fun k => (k, V.dict [])) }

/-- C8 witness: the amended statement at the concrete state missing only
`flair_distribution`. -/
theorem C8_merge_completeness_witness :
    expectedExtractionKeys.filter
      (fun k2 => ! StrMap.containsKey sevenCategoryState.extractionResults
        k2) = ["flair_distribution"] ∧
    StrMap.lookup
      ((merge_extraction_node sevenCategoryState).extractionResults.getD [])
      "flair_distribution" = some (V.dict []) ∧
    extractionCompleteFlag (merge_extraction_node sevenCategoryState) =
      some (V.b false) :=
  ⟨rfl,
    ((C8_merge_completeness sevenCategoryState).1 "flair_distribution"
      rfl).1,
    ((C8_merge_completeness sevenCategoryState).1 "flair_distribution"
      rfl).2⟩
